import Mathlib

/-!
Verification development for the ledger numeric core (amount.h / commodity.h).

The repository ships only the two headers; the out-of-line bodies
(amount.cc / commodity.cc) are not part of the source tree.  Wherever a
definition below embeds one of those missing bodies it is modelled from the
specification (spec.md) and its doc comment says so; everything that is
inline in the headers is embedded directly from them.

Machine integers of the C++ (`uint_least16_t` precisions, `uint_least8_t`
flag sets, arbitrary-precision numerators) are modelled as `Nat`/`Int`;
none of the modelled operations can overflow their C++ types on the inputs
the spec constrains them to, and the numerator type is itself unbounded.
-/

deriving instance DecidableEq for Except

namespace Ledger

/-- Modelled from the spec: the error taxonomy of section 7 ("reported
uniformly as a single `AmountError` kind with a discriminator");
`DECLARE_EXCEPTION(amount_error)` in amount.h:58 declares the carrier. -/
inductive amount_error where
  | ParseError
  | IncompatibleCommodities
  | DivideByZero
  | PrecisionLoss
  | NotConvertible
  | UnknownCommodity
  | InvalidState
deriving DecidableEq, BEq

/-- Modelled from the spec: the BigRational of section 3/4.1, the body of
`amount_t::bigint_t` (amount.cc is absent).  The value denoted is
`num / 10 ^ scale`; `scale` is the internal precision. -/
structure bigRational where
  num : Int
  scale : Nat
deriving DecidableEq

/-- Modelled from the spec: the payload of a non-null Amount: a BigRational
quantity, an optional commodity handle (interning makes a symbol string a
faithful stand-in for a plain commodity handle; `none` is the anonymous
null commodity), and the "print at full internal precision" mark that
`unround()`/`PARSE_NO_MIGRATE` set (spec section 4.2/4.5). -/
structure amount_v where
  q : bigRational
  comm : Option String
  keepPrec : Bool
deriving DecidableEq

/-- The spec-level Amount (spec section 3): an optional quantity; per the
data-model invariant a commodity is only carried when a quantity is
("if `quantity` is absent then `commodity` is absent"), which this shape
enforces.  `val = none` is the default-constructed null Amount. -/
structure amount_t where
  val : Option amount_v
deriving DecidableEq

/-- amount_t() (amount.h:171): the null Amount, no value and no commodity. -/
def amount_null : amount_t := ⟨none⟩

/-- amount_t(long) (amount.h:176, semantics from spec section 4.2): scale 0,
commodity `null_commodity`. -/
def amount_ofLong (n : Int) : amount_t := ⟨some ⟨⟨n, 0⟩, none, false⟩⟩

/-- is_null at the spec level: quantity absent (amount.h:392-394 under the
section-3 invariant). -/
def amount_is_null (a : amount_t) : Bool := a.val.isNone

/-- commodity() at the spec level (amount.h:725-728): the amount's
commodity, with the anonymous null commodity (`none`) reported when no
commodity is attached. -/
def amount_commodity (a : amount_t) : Option String :=
  match a.val with
  | some v => v.comm
  | none => none

/-- Modelled from the spec: BigRational add (section 4.1) — align to
`max(a.scale, b.scale)` by scaling the lesser-scaled numerator, result
scale is that maximum (amount.cc is absent). -/
def bigRational_add (q1 q2 : bigRational) : bigRational :=
  let s := max q1.scale q2.scale
  ⟨q1.num * 10 ^ (s - q1.scale) + q2.num * 10 ^ (s - q2.scale), s⟩

/-- Modelled from the spec: BigRational sub (section 4.1), same alignment
as add (amount.cc is absent). -/
def bigRational_sub (q1 q2 : bigRational) : bigRational :=
  let s := max q1.scale q2.scale
  ⟨q1.num * 10 ^ (s - q1.scale) - q2.num * 10 ^ (s - q2.scale), s⟩

/-- Modelled from the spec: BigRational mul (section 4.1) — numerator
product, scales add (amount.cc is absent). -/
def bigRational_mul (q1 q2 : bigRational) : bigRational :=
  ⟨q1.num * q2.num, q1.scale + q2.scale⟩

/-- Modelled from the spec: BigRational div (section 4.1/4.2) — extend the
dividend to `MIN_EXTENDED_DIGITS` (6) past the larger operand precision and
divide with truncation toward zero (amount.cc is absent).  The caller has
already ruled out a zero divisor. -/
def bigRational_div (q1 q2 : bigRational) : bigRational :=
  let p := max q1.scale q2.scale + 6
  ⟨Int.tdiv (q1.num * 10 ^ (p + q2.scale - q1.scale)) q2.num, p⟩

/-- Modelled from the spec: BigRational compare (section 4.1) — align the
scales without mutating the inputs, compare the numerators (amount.cc is
absent). -/
def bigRational_compare (q1 q2 : bigRational) : Int :=
  let s := max q1.scale q2.scale
  let n1 := q1.num * 10 ^ (s - q1.scale)
  let n2 := q2.num * 10 ^ (s - q2.scale)
  if n1 < n2 then -1 else if n2 < n1 then 1 else 0

/-- Modelled from the spec: amount_t::operator+= (declared amount.h:269,
body in the absent amount.cc).  Section 4.2: a null operand makes the
result a copy of the other operand; distinct non-null commodities fail
with `IncompatibleCommodities`; a null (anonymous) commodity on exactly
one side adopts the other side's commodity.  Spec leaves the
full-precision mark's propagation open; it is kept when either operand
carries it. -/
def amount_add (a b : amount_t) : Except amount_error amount_t :=
  match a.val, b.val with
  | none, _ => .ok b
  | some _, none => .ok a
  | some va, some vb =>
    let k := va.keepPrec || vb.keepPrec
    match va.comm, vb.comm with
    | some x, some y =>
      if x = y then .ok ⟨some ⟨bigRational_add va.q vb.q, some x, k⟩⟩
      else .error .IncompatibleCommodities
    | some x, none => .ok ⟨some ⟨bigRational_add va.q vb.q, some x, k⟩⟩
    | none, cy => .ok ⟨some ⟨bigRational_add va.q vb.q, cy, k⟩⟩

/-- Modelled from the spec: amount_t::operator-= (declared amount.h:270,
body in the absent amount.cc); same commodity rules as addition
(spec section 4.2). -/
def amount_sub (a b : amount_t) : Except amount_error amount_t :=
  match a.val, b.val with
  | none, _ => .ok b
  | some _, none => .ok a
  | some va, some vb =>
    let k := va.keepPrec || vb.keepPrec
    match va.comm, vb.comm with
    | some x, some y =>
      if x = y then .ok ⟨some ⟨bigRational_sub va.q vb.q, some x, k⟩⟩
      else .error .IncompatibleCommodities
    | some x, none => .ok ⟨some ⟨bigRational_sub va.q vb.q, some x, k⟩⟩
    | none, cy => .ok ⟨some ⟨bigRational_sub va.q vb.q, cy, k⟩⟩

/-- Modelled from the spec: amount_t::operator*= (declared amount.h:271,
body in the absent amount.cc).  Section 4.2: null operand yields a copy of
the other operand; the result carries the left operand's commodity (the
transient display-precision widening on the commodity's metadata is a pool
side effect outside this value-level model). -/
def amount_mul (a b : amount_t) : Except amount_error amount_t :=
  match a.val, b.val with
  | none, _ => .ok b
  | some _, none => .ok a
  | some va, some vb =>
    .ok ⟨some ⟨bigRational_mul va.q vb.q, va.comm, va.keepPrec || vb.keepPrec⟩⟩

/-- Modelled from the spec: amount_t::operator/= (declared amount.h:272,
body in the absent amount.cc).  Section 4.2: a null divisor or a divisor
with zero numerator fails with `DivideByZero` ("`0 / null` is
`DivideByZero`", "Fails with `DivideByZero` when `b.num == 0`"); a null
dividend yields a copy of the other operand; otherwise the result carries
the left operand's commodity. -/
def amount_div (a b : amount_t) : Except amount_error amount_t :=
  match b.val with
  | none => .error .DivideByZero
  | some vb =>
    if vb.q.num = 0 then .error .DivideByZero
    else
      match a.val with
      | none => .ok b
      | some va =>
        .ok ⟨some ⟨bigRational_div va.q vb.q, va.comm, va.keepPrec || vb.keepPrec⟩⟩

/-- Modelled from the spec: amount_t::compare (declared amount.h:242, body
in the absent amount.cc).  Section 7: `IncompatibleCommodities` on
distinct non-null commodities; otherwise numeric comparison.  A null
operand is treated as zero with the null commodity (amount.h:157-159: a
null amount "will be zero, and its commodity equals null_commodity"). -/
def amount_compare (a b : amount_t) : Except amount_error Int :=
  let va := a.val.getD ⟨⟨0, 0⟩, none, false⟩
  let vb := b.val.getD ⟨⟨0, 0⟩, none, false⟩
  match va.comm, vb.comm with
  | some x, some y =>
    if x = y then .ok (bigRational_compare va.q vb.q)
    else .error .IncompatibleCommodities
  | _, _ => .ok (bigRational_compare va.q vb.q)

/-- amount_t::operator== (amount.h:709-713): mismatched commodities yield
false without consulting compare; otherwise equality is `compare == 0`.
(The header writes `if (commodity() != amt.commodity()) return false;`.) -/
def amount_eq (a b : amount_t) : Bool :=
  if amount_commodity a = amount_commodity b then
    match amount_compare a b with
    | .ok c => c == 0
    | .error _ => false
  else false

/-- Round a magnitude `a` down by a factor `b`, ties to even (used by
`bigRational_rescale`; `b` is a positive power of ten). -/
def roundHalfEvenNat (a b : Nat) : Nat :=
  let q := a / b
  let r := a % b
  if 2 * r < b then q
  else if b < 2 * r then q + 1
  else if q % 2 = 0 then q else q + 1

/-- Drop `d` decimal digits from an integer numerator, rounding half to
even; the rounding acts on the magnitude, the sign is restored after. -/
def roundHalfEven (n : Int) (d : Nat) : Int :=
  let m := roundHalfEvenNat n.natAbs (10 ^ d)
  if n < 0 then -(m : Int) else (m : Int)

/-- Modelled from the spec: BigRational rescale_to (section 4.1, body in
the absent amount.cc): below the current scale round half-to-even, above
it left-pad the numerator by powers of ten; the result scale is `p`
either way. -/
def bigRational_rescale (q : bigRational) (p : Nat) : bigRational :=
  if p < q.scale then ⟨roundHalfEven q.num (q.scale - p), p⟩
  else ⟨q.num * 10 ^ (p - q.scale), p⟩

/-- Modelled from the spec: amount_t::round(precision_t) (declared
amount.h:335, body in the absent amount.cc): "rescale to `p`"
(spec section 4.2); a null amount has nothing to rescale. -/
def amount_round (a : amount_t) (p : Nat) : amount_t :=
  match a.val with
  | none => a
  | some v => ⟨some ⟨bigRational_rescale v.q p, v.comm, v.keepPrec⟩⟩

/-- The display slice of commodity_base_t that the parse/print paths read
and write: display precision and style flags (commodity.h:73-75). -/
structure commodity_display where
  precision : Nat
  flags : Nat
deriving DecidableEq

/-- Modelled from the spec: the pool's commodity metadata viewed as a
total map from symbol to display metadata; a symbol never seen carries
the freshly-constructed defaults (precision 0, flags 0,
commodity.h:83-86), which makes find-or-create interning implicit. -/
abbrev commodity_pool_s := String → commodity_display

/-- amount_t::round() (amount.h:715-719): identity without a commodity,
otherwise round to the commodity's display precision. -/
def amount_round0 (pool : commodity_pool_s) (a : amount_t) : amount_t :=
  match a.val with
  | none => a
  | some v =>
    match v.comm with
    | none => a
    | some s => amount_round a ((pool s).precision)

/-! ## Parsing and printing (spec section 4.5; amount.cc is absent)

The grammar parsed here is the spec's: optional sign, optional
whitespace, then commodity-then-number, number-then-commodity, or a bare
number, where a number is digit groups joined by `.`/`,` separators with
the last separator read as the decimal mark and the others as thousands
groups.  Lot annotations (`{price}`, `[date]`, `(tag)`) are not modelled:
input carrying them is rejected as a parse error rather than consumed.
The post-parse `reduce()` step is the identity here because the modelled
pool metadata carries no `smaller`/`larger` scaling links (spec section
8: "`reduce` is a fixed-point when no `smaller` link is present"). -/

/-- COMMODITY_STYLE_SUFFIXED (commodity.h:49). -/
def COMMODITY_STYLE_SUFFIXED : Nat := 1
/-- COMMODITY_STYLE_SEPARATED (commodity.h:50). -/
def COMMODITY_STYLE_SEPARATED : Nat := 2
/-- COMMODITY_STYLE_EUROPEAN (commodity.h:51). -/
def COMMODITY_STYLE_EUROPEAN : Nat := 4
/-- COMMODITY_STYLE_THOUSANDS (commodity.h:52). -/
def COMMODITY_STYLE_THOUSANDS : Nat := 8

/-- A number separator: thousands group mark or decimal mark. -/
def isSep (c : Char) : Bool := c = '.' || c = ','

/-- A character that may appear inside a number token. -/
def isNumChar (c : Char) : Bool := c.isDigit || isSep c

/-- No two adjacent separators inside a number token. -/
def noAdjSeps : List Char → Bool
  | [] => true
  | [_] => true
  | a :: b :: rest => !(isSep a && isSep b) && noAdjSeps (b :: rest)

/-- A well-formed number token: starts and ends with a digit, separators
only between digit groups. -/
def validNumTok (cs : List Char) : Bool :=
  match cs with
  | [] => false
  | c :: _ =>
    c.isDigit &&
    (match cs.getLast? with | some l => l.isDigit | none => false) &&
    noAdjSeps cs

/-- Digit characters read as a base-10 natural number. -/
def digitsToNat (cs : List Char) : Nat :=
  cs.foldl (fun acc c => acc * 10 + (c.toNat - 48)) 0

/-- What a number token observes: numerator digits, fractional digit
count, and the two style facts the spec derives from the separators. -/
structure num_info where
  digitsVal : Nat
  fracDigits : Nat
  european : Bool
  thousands : Bool
deriving DecidableEq

/-- Modelled from the spec: read one number token.  The last separator is
the decimal mark, the remaining separators are thousands groups;
`european` iff the decimal mark was `,`, `thousands` iff a group mark was
observed (spec section 4.5). -/
def parseNumTok (cs : List Char) : Except amount_error num_info :=
  if validNumTok cs then
    let seps := cs.filter (fun c => isSep c)
    match seps.getLast? with
    | none => .ok ⟨digitsToNat cs, 0, false, false⟩
    | some d =>
      let frac := (cs.reverse.takeWhile (fun c => c.isDigit)).length
      .ok ⟨digitsToNat (cs.filter (fun c => c.isDigit)), frac, d == ',', 2 ≤ seps.length⟩
  else .error .ParseError

/-- A character allowed in a bare commodity symbol: anything but digits,
whitespace, signs, number separators and the quote (spec section 4.5). -/
def isSymbolChar (c : Char) : Bool :=
  !(c.isDigit || c = ' ' || c = '-' || c = '+' || isSep c || c = '"')

/-- Modelled from the spec: read a commodity symbol, quoted or bare, off
the front of the input; yields the symbol and the unread remainder. -/
def parseCommodityTok (cs : List Char) : Except amount_error (String × List Char) :=
  match cs with
  | '"' :: rest =>
    let sym := rest.takeWhile (fun c => c ≠ '"')
    match rest.dropWhile (fun c => c ≠ '"') with
    | '"' :: tail => if sym.isEmpty then .error .ParseError else .ok (String.mk sym, tail)
    | _ => .error .ParseError
  | _ =>
    let sym := cs.takeWhile (fun c => isSymbolChar c)
    if sym.isEmpty then .error .ParseError
    else .ok (String.mk sym, cs.drop sym.length)

/-- Everything one textual amount reveals: sign, optional commodity
symbol, numerator digits and fractional digit count, and the observed
style flags. -/
structure parsed_amount where
  neg : Bool
  commoditySym : Option String
  value : Nat
  fracDigits : Nat
  obsFlags : Nat
deriving DecidableEq

/-- The style-flag bits a parse observes (spec section 4.5). -/
def styleOf (suffixed separated : Bool) (n : num_info) : Nat :=
  (if suffixed then COMMODITY_STYLE_SUFFIXED else 0) |||
  (if separated then COMMODITY_STYLE_SEPARATED else 0) |||
  (if n.european then COMMODITY_STYLE_EUROPEAN else 0) |||
  (if n.thousands then COMMODITY_STYLE_THOUSANDS else 0)

/-- Modelled from the spec: the lexical phase of amount_t::parse
(spec section 4.5 grammar; amount.cc is absent).  Trailing input that is
not whitespace is a parse error. -/
def parseRawAmount (s : String) : Except amount_error parsed_amount :=
  let cs0 := s.data
  let (neg, cs1) :=
    match cs0 with
    | '-' :: rest => (true, rest)
    | '+' :: rest => (false, rest)
    | _ => (false, cs0)
  let cs2 := cs1.dropWhile (fun c => c = ' ')
  match cs2 with
  | [] => .error .ParseError
  | c :: _ =>
    if c.isDigit then
      let numTok := cs2.takeWhile (fun c => isNumChar c)
      let rest := cs2.drop numTok.length
      match parseNumTok numTok with
      | .error e => .error e
      | .ok n =>
        let restT := rest.dropWhile (fun c => c = ' ')
        if restT.isEmpty then
          .ok ⟨neg, none, n.digitsVal, n.fracDigits, styleOf false false n⟩
        else
          let separated := decide (restT.length < rest.length)
          match parseCommodityTok restT with
          | .error e => .error e
          | .ok (sym, rest2) =>
            if (rest2.dropWhile (fun c => c = ' ')).isEmpty then
              .ok ⟨neg, some sym, n.digitsVal, n.fracDigits, styleOf true separated n⟩
            else .error .ParseError
    else
      match parseCommodityTok cs2 with
      | .error e => .error e
      | .ok (sym, rest) =>
        let restT := rest.dropWhile (fun c => c = ' ')
        let separated := decide (restT.length < rest.length)
        let numTok := restT.takeWhile (fun c => isNumChar c)
        let rest2 := restT.drop numTok.length
        match parseNumTok numTok with
        | .error e => .error e
        | .ok n =>
          if (rest2.dropWhile (fun c => c = ' ')).isEmpty then
            .ok ⟨neg, some sym, n.digitsVal, n.fracDigits, styleOf false separated n⟩
          else .error .ParseError

/-- AMOUNT_PARSE_NO_MIGRATE / AMOUNT_PARSE_NO_REDUCE (amount.h:546-547)
unpacked into a record. -/
structure parse_flags where
  no_migrate : Bool
  no_reduce : Bool
deriving DecidableEq

/-- Modelled from the spec: amount_t::parse on a string (declared
amount.h:561-564, body in the absent amount.cc).  The returned pool is
the input pool with the commodity's display precision widened to the
observed fractional digits and the observed style flags OR-ed in — unless
`NO_MIGRATE`, which leaves every commodity's display metadata untouched
and instead marks the parsed quantity to keep its full precision when
printed (spec sections 4.5 and 6). -/
def amount_parse (pool : commodity_pool_s) (s : String) (fl : parse_flags) :
    Except amount_error (amount_t × commodity_pool_s) :=
  match parseRawAmount s with
  | .error e => .error e
  | .ok r =>
    let q : bigRational := ⟨if r.neg then -(r.value : Int) else (r.value : Int), r.fracDigits⟩
    let a : amount_t := ⟨some ⟨q, r.commoditySym, fl.no_migrate⟩⟩
    let pool' :=
      if fl.no_migrate then pool
      else
        match r.commoditySym with
        | none => pool
        | some sym => fun t =>
            if t = sym then
              ⟨max (pool sym).precision r.fracDigits, (pool sym).flags ||| r.obsFlags⟩
            else pool t
    .ok (a, pool')

/-- amount_t::exact (amount.h:670-674): parse with
AMOUNT_PARSE_NO_MIGRATE and nothing else. -/
def amount_exact (pool : commodity_pool_s) (s : String) :
    Except amount_error (amount_t × commodity_pool_s) :=
  amount_parse pool s ⟨true, false⟩

/-- commodity_t::symbol_needs_quotes (declared commodity.h:106, body in
the absent commodity.cc); the pure predicate of spec section 4.3: any
digit, whitespace, or listed punctuation forces quoting. -/
def symbol_needs_quotes (s : String) : Bool :=
  s.data.any (fun c =>
    c.isDigit || c = ' ' ||
    c = '.' || c = ',' || c = ';' || c = ':' || c = '?' || c = '!' ||
    c = '-' || c = '+' || c = '*' || c = '/' || c = '^' || c = '&' ||
    c = '|' || c = '=' || c = '<' || c = '>' || c = '\x7b' || c = '\x7d' ||
    c = '[' || c = ']' || c = '(' || c = ')' || c = '@')

/-- Round a magnitude `a` down by a factor `b`, ties away from zero (the
display rounding of spec section 4.1). -/
def roundHalfAwayNat (a b : Nat) : Nat :=
  let q := a / b
  if b ≤ 2 * (a % b) then q + 1 else q

/-- Drop `d` decimal digits, rounding half away from zero on the
magnitude. -/
def roundHalfAway (n : Int) (d : Nat) : Int :=
  let m := roundHalfAwayNat n.natAbs (10 ^ d)
  if n < 0 then -(m : Int) else (m : Int)

/-- Modelled from the spec: bring a quantity to the display precision for
printing — round half away from zero below the current scale
(spec section 4.1), pad with zeros above it. -/
def bigRational_displayRescale (q : bigRational) (p : Nat) : bigRational :=
  if p < q.scale then ⟨roundHalfAway q.num (q.scale - p), p⟩
  else ⟨q.num * 10 ^ (p - q.scale), p⟩

/-- Insert a group mark after every third digit of a reversed digit
list. -/
def groupRev (m : Char) : List Char → List Char
  | a :: b :: c :: d :: rest => a :: b :: c :: m :: groupRev m (d :: rest)
  | l => l

/-- Thousands-group a digit string with the given mark. -/
def groupIntDigits (mark : Char) (s : String) : String :=
  String.mk ((groupRev mark s.data.reverse).reverse)

/-- Left-pad a digit string with zeros to width `k`. -/
def padZeros (k : Nat) (s : String) : String :=
  String.mk (List.replicate (k - s.length) '0') ++ s

/-- Render the magnitude of a quantity: grouped integer digits, then the
decimal mark and all `scale` fractional digits; marks follow the
European flag. -/
def renderMagnitude (q : bigRational) (eur thousands : Bool) : String :=
  let n := q.num.natAbs
  let ip := n / 10 ^ q.scale
  let fp := n % 10 ^ q.scale
  let ipStr :=
    if thousands then groupIntDigits (if eur then '.' else ',') (Nat.repr ip)
    else Nat.repr ip
  ipStr ++ (if q.scale = 0 then "" else (if eur then "," else ".") ++ padZeros q.scale (Nat.repr fp))

/-- Modelled from the spec: amount_t::print (declared amount.h:592, body
in the absent amount.cc).  Spec section 4.5: optional minus sign, then
the commodity placed and spaced by its style flags, then the digits
rounded to the commodity's display precision — or kept at full internal
precision when `fullPrec` is passed or the amount is marked unrounded.
An uncommoditized amount is never truncated (amount.h:69-70); a null
amount is zero in value situations (amount.h:157-159). -/
def amount_print (pool : commodity_pool_s) (a : amount_t)
    (omitComm fullPrec : Bool) : String :=
  match a.val with
  | none => "0"
  | some v =>
    match v.comm with
    | none =>
      (if v.q.num < 0 then "-" else "") ++ renderMagnitude v.q false false
    | some sym =>
      let meta := pool sym
      let q := if fullPrec || v.keepPrec then v.q
               else bigRational_displayRescale v.q meta.precision
      let eur := (meta.flags &&& COMMODITY_STYLE_EUROPEAN) != 0
      let body := renderMagnitude q eur ((meta.flags &&& COMMODITY_STYLE_THOUSANDS) != 0)
      let sgn := if q.num < 0 then "-" else ""
      let symStr := if symbol_needs_quotes sym then "\"" ++ sym ++ "\"" else sym
      let sp := if (meta.flags &&& COMMODITY_STYLE_SEPARATED) != 0 then " " else ""
      if omitComm then sgn ++ body
      else if (meta.flags &&& COMMODITY_STYLE_SUFFIXED) != 0 then
        sgn ++ body ++ sp ++ symStr
      else sgn ++ symStr ++ sp ++ body

/-! ## The commodity object model (commodity.h) and the raw amount fields
(amount.h)

Here pointers are modelled explicitly: a `shared_ptr<commodity_base_t>`
is an index into a store of bases, a `commodity_pool_t *` is an index
into a store of pools, and a `commodity_t *` held by an amount is an
optional index into a store of commodities.  This level carries the code
that is inline in the headers: `has_commodity`, `commodity`, `is_null`,
`set_commodity`, `clear_commodity`, the annotated-commodity constructor,
and the metadata accessors that route through the shared base. -/

/-- commodity_base_t (commodity.h:56-98): the shared mutable metadata of
one commodity symbol.  Timestamps are modelled as `Nat`; the price
history map as an association list. -/
structure commodity_base_t where
  flags : Nat
  symbol : String
  precision : Nat
  name : Option String
  note : Option String
  history : List (Nat × amount_t)
  smaller : Option amount_t
  larger : Option amount_t

/-- commodity_t (commodity.h:102-224): a handle — shared base, owning
pool, numeric ident, optional qualified symbol and mapping key, and the
`annotated` discriminator.  The constructor (commodity.h:123-127) sets
`annotated` to false. -/
structure commodity_t where
  base : Nat
  parent_ : Nat
  ident : Nat
  qualified_symbol : Option String
  mapping_key_ : Option String
  annotated : Bool
deriving DecidableEq

/-- annotation_t (commodity.h:231-261): optional lot price, date, tag. -/
structure annot_t where
  price : Option amount_t
  date : Option Nat
  tag : Option String

/-- annotated_commodity_t (commodity.h:268-301): a commodity_t plus the
referent pointer and the annotation details. -/
structure annotated_commodity_t where
  toCommodity : commodity_t
  ptr : commodity_t
  details : annot_t

/-- The annotated_commodity_t constructor (commodity.h:276-281):
`commodity_t(_ptr->parent_, _ptr->base)` — so the new handle shares the
referent's base and pool — then `annotated = true` in the body; `ident`,
`qualified_symbol` and `mapping_key_` are left at their defaults. -/
def annotated_commodity_mk (p : commodity_t) (d : annot_t) : annotated_commodity_t :=
  { toCommodity :=
      { base := p.base, parent_ := p.parent_, ident := 0,
        qualified_symbol := none, mapping_key_ := none, annotated := true },
    ptr := p, details := d }

/-- annotated_commodity_t::referent (commodity.h:288-293): `*ptr`. -/
def annotated_referent (a : annotated_commodity_t) : commodity_t := a.ptr

/-- The store of commodity_base_t objects that shared_ptr handles index
into. -/
structure base_store where
  bases : Nat → commodity_base_t

/-- commodity_t::precision (commodity.h:175-177): reads the shared
base. -/
def commodity_precision (st : base_store) (c : commodity_t) : Nat :=
  (st.bases c.base).precision

/-- commodity_t::set_precision (commodity.h:178-180): writes the shared
base. -/
def commodity_set_precision (st : base_store) (c : commodity_t) (v : Nat) : base_store :=
  ⟨fun i => if i = c.base then { st.bases i with precision := v } else st.bases i⟩

/-- commodity_t::flags (commodity.h:182-184). -/
def commodity_flags (st : base_store) (c : commodity_t) : Nat :=
  (st.bases c.base).flags

/-- commodity_t::set_flags (commodity.h:185-187). -/
def commodity_set_flags (st : base_store) (c : commodity_t) (v : Nat) : base_store :=
  ⟨fun i => if i = c.base then { st.bases i with flags := v } else st.bases i⟩

/-- commodity_t::name (commodity.h:161-163). -/
def commodity_name (st : base_store) (c : commodity_t) : Option String :=
  (st.bases c.base).name

/-- commodity_t::set_name (commodity.h:164-166). -/
def commodity_set_name (st : base_store) (c : commodity_t) (v : Option String) : base_store :=
  ⟨fun i => if i = c.base then { st.bases i with name := v } else st.bases i⟩

/-- commodity_t::note (commodity.h:168-170). -/
def commodity_note (st : base_store) (c : commodity_t) : Option String :=
  (st.bases c.base).note

/-- commodity_t::set_note (commodity.h:171-173). -/
def commodity_set_note (st : base_store) (c : commodity_t) (v : Option String) : base_store :=
  ⟨fun i => if i = c.base then { st.bases i with note := v } else st.bases i⟩

/-- The sentinel and default commodity pointers of commodity_pool_t
(commodity.h:335-336); the null sentinel exists from pool construction
(spec section 3), the default commodity is nullable. -/
structure pool_t where
  null_commodity : Nat
  default_commodity : Option Nat
deriving DecidableEq

/-- The object graph the inline amount.h commodity accessors walk:
commodities with their owning pools, and the process-wide
`amount_t::default_pool` (amount.h:96). -/
structure mem_state where
  comms : Nat → commodity_t
  pools : Nat → pool_t
  default_pool : Nat

/-- The raw fields of amount_t (amount.h:150-151): a possibly-NULL
quantity pointer and a possibly-NULL commodity pointer. -/
structure amount_rep where
  quantity : Option bigRational
  commodity_ : Option Nat
deriving DecidableEq

/-- amount_t::has_commodity (amount.h:721-723): the pointer is non-null
and is not its own pool's null-commodity sentinel. -/
def has_commodity (st : mem_state) (a : amount_rep) : Bool :=
  match a.commodity_ with
  | none => false
  | some cid => decide (cid ≠ (st.pools (st.comms cid).parent_).null_commodity)

/-- amount_t::commodity (amount.h:725-728): the held commodity when
`has_commodity()`, else the default pool's null commodity. -/
def commodity_of (st : mem_state) (a : amount_rep) : Nat :=
  match a.commodity_ with
  | none => (st.pools st.default_pool).null_commodity
  | some cid =>
    if cid = (st.pools (st.comms cid).parent_).null_commodity then
      (st.pools st.default_pool).null_commodity
    else cid

/-- amount_t::is_null (amount.h:392-394): no quantity and no
commodity. -/
def is_null (st : mem_state) (a : amount_rep) : Bool :=
  !a.quantity.isSome && !has_commodity st a

/-- amount_t::set_commodity (amount.h:453-455). -/
def set_commodity (a : amount_rep) (cid : Nat) : amount_rep :=
  { a with commodity_ := some cid }

/-- amount_t::clear_commodity (amount.h:456-458). -/
def clear_commodity (a : amount_rep) : amount_rep :=
  { a with commodity_ := none }

/-! ## The quote-lookup hook (commodity.h:339-360) -/

/-- commodity_pool_t::first_initialized (commodity.h:339-352),
instantiated as the signal does at `T = optional<amount_t>`: walk the
slot results in order and return the first one that is truthy — for an
optional, the first `some` — else the default-constructed `T()`,
i.e. `none`. -/
def first_initialized : List (Option amount_t) → Option amount_t
  | [] => none
  | r :: rest =>
    match r with
    | some v => some v
    | none => first_initialized rest

/-- The argument tuple of the get_quote signal (commodity.h:355-360):
commodity, date, moment, last — moments modelled as `Nat`. -/
structure quote_args where
  commodity : commodity_t
  date : Option Nat
  moment : Option Nat
  last : Option Nat

/-- commodity_pool_t::get_quote (commodity.h:355-360): a boost signal
whose subscriber list is invoked in registration order and combined with
`first_initialized`. -/
def get_quote (slots : List (quote_args → Option amount_t)) (args : quote_args) :
    Option amount_t :=
  first_initialized (slots.map (fun f => f args))

/-! ## Helper lemmas -/

/-- Aligning a quantity against itself and subtracting leaves a zero
numerator at the same scale. -/
lemma bigRational_sub_self (q : bigRational) : bigRational_sub q q = ⟨0, q.scale⟩ := by
  simp [bigRational_sub]

/-- Two zero quantities compare equal at any pair of scales. -/
lemma bigRational_compare_zero (s t : Nat) :
    bigRational_compare ⟨0, s⟩ ⟨0, t⟩ = 0 := by
  simp [bigRational_compare]

/-- Comparing a quantity with itself yields 0. -/
lemma bigRational_compare_self (q : bigRational) : bigRational_compare q q = 0 := by
  simp [bigRational_compare]

/-! ## Claims -/

/-- Claim C1: for Amounts whose commodities are distinct and both
non-null, `operator+=` and `operator-=` fail with
`IncompatibleCommodities`; when exactly one operand carries the anonymous
(null) commodity the operation succeeds and the result adopts the other
operand's commodity. -/
theorem add_sub_incompatible_commodities :
    (∀ (a b : amount_t) (va vb : amount_v) (x y : String),
        a.val = some va → b.val = some vb →
        va.comm = some x → vb.comm = some y → x ≠ y →
        amount_add a b = .error .IncompatibleCommodities ∧
        amount_sub a b = .error .IncompatibleCommodities) ∧
    (∀ (a b : amount_t) (va vb : amount_v) (x : String),
        a.val = some va → b.val = some vb →
        va.comm = some x → vb.comm = none →
        (∃ r, amount_add a b = .ok r ∧ amount_commodity r = some x) ∧
        (∃ r, amount_sub a b = .ok r ∧ amount_commodity r = some x)) ∧
    (∀ (a b : amount_t) (va vb : amount_v) (y : String),
        a.val = some va → b.val = some vb →
        va.comm = none → vb.comm = some y →
        (∃ r, amount_add a b = .ok r ∧ amount_commodity r = some y) ∧
        (∃ r, amount_sub a b = .ok r ∧ amount_commodity r = some y)) := by
  refine ⟨?_, ?_, ?_⟩
  · intro a b va vb x y ha hb hx hy hxy
    cases a; cases b
    subst ha; subst hb
    rcases va with ⟨qa, ca, ka⟩
    rcases vb with ⟨qb, cb, kb⟩
    dsimp at hx hy
    subst hx; subst hy
    exact ⟨by simp [amount_add, hxy], by simp [amount_sub, hxy]⟩
  · intro a b va vb x ha hb hx hy
    cases a; cases b
    subst ha; subst hb
    rcases va with ⟨qa, ca, ka⟩
    rcases vb with ⟨qb, cb, kb⟩
    dsimp at hx hy
    subst hx; subst hy
    exact ⟨⟨⟨some ⟨bigRational_add qa qb, some x, ka || kb⟩⟩, rfl, rfl⟩,
           ⟨⟨some ⟨bigRational_sub qa qb, some x, ka || kb⟩⟩, rfl, rfl⟩⟩
  · intro a b va vb y ha hb hx hy
    cases a; cases b
    subst ha; subst hb
    rcases va with ⟨qa, ca, ka⟩
    rcases vb with ⟨qb, cb, kb⟩
    dsimp at hx hy
    subst hx; subst hy
    exact ⟨⟨⟨some ⟨bigRational_add qa qb, some y, ka || kb⟩⟩, rfl, rfl⟩,
           ⟨⟨some ⟨bigRational_sub qa qb, some y, ka || kb⟩⟩, rfl, rfl⟩⟩

/-- Witness for C1 at concrete inputs: $5 against 3 EUR fails both ways;
$5 against an uncommoditized 3 adopts $, in either operand order. -/
theorem add_sub_incompatible_commodities_witness :
    (amount_add ⟨some ⟨⟨5, 0⟩, some "$", false⟩⟩ ⟨some ⟨⟨3, 0⟩, some "EUR", false⟩⟩ =
        .error .IncompatibleCommodities ∧
      amount_sub ⟨some ⟨⟨5, 0⟩, some "$", false⟩⟩ ⟨some ⟨⟨3, 0⟩, some "EUR", false⟩⟩ =
        .error .IncompatibleCommodities) ∧
    ((∃ r, amount_add ⟨some ⟨⟨5, 0⟩, some "$", false⟩⟩ ⟨some ⟨⟨3, 0⟩, none, false⟩⟩ = .ok r ∧
        amount_commodity r = some "$") ∧
      (∃ r, amount_sub ⟨some ⟨⟨5, 0⟩, some "$", false⟩⟩ ⟨some ⟨⟨3, 0⟩, none, false⟩⟩ = .ok r ∧
        amount_commodity r = some "$")) ∧
    ((∃ r, amount_add ⟨some ⟨⟨3, 0⟩, none, false⟩⟩ ⟨some ⟨⟨5, 0⟩, some "$", false⟩⟩ = .ok r ∧
        amount_commodity r = some "$") ∧
      (∃ r, amount_sub ⟨some ⟨⟨3, 0⟩, none, false⟩⟩ ⟨some ⟨⟨5, 0⟩, some "$", false⟩⟩ = .ok r ∧
        amount_commodity r = some "$")) :=
  ⟨add_sub_incompatible_commodities.1 _ _ _ _ "$" "EUR" rfl rfl rfl rfl (by decide),
   add_sub_incompatible_commodities.2.1 _ _ _ _ "$" rfl rfl rfl rfl,
   add_sub_incompatible_commodities.2.2 _ _ _ _ "$" rfl rfl rfl rfl⟩

/-- Claim C2: combining any Amount with the default-constructed null
Amount under `+`, `-` or `*` yields a copy of that Amount, and
`a - a == 0` (the comparison the C++ `a - a == 0` performs against an
integer literal, namely `compare == 0`) for every `a`. -/
theorem null_amount_additive_identity :
    ∀ (a : amount_t),
      amount_add a amount_null = .ok a ∧
      amount_add amount_null a = .ok a ∧
      amount_sub a amount_null = .ok a ∧
      amount_sub amount_null a = .ok a ∧
      amount_mul a amount_null = .ok a ∧
      amount_mul amount_null a = .ok a ∧
      ∃ r, amount_sub a a = .ok r ∧ amount_compare r (amount_ofLong 0) = .ok 0 := by
  intro a
  rcases a with ⟨_ | ⟨q, c, k⟩⟩
  · exact ⟨rfl, rfl, rfl, rfl, rfl, rfl, ⟨amount_null, rfl, by
      simp [amount_compare, amount_null, amount_ofLong, bigRational_compare_zero]⟩⟩
  · refine ⟨rfl, rfl, rfl, rfl, rfl, rfl, ?_⟩
    rcases c with _ | x
    · exact ⟨⟨some ⟨bigRational_sub q q, none, k || k⟩⟩, rfl, by
        simp [amount_compare, amount_ofLong, bigRational_sub_self, bigRational_compare_zero]⟩
    · exact ⟨⟨some ⟨bigRational_sub q q, some x, k || k⟩⟩, by simp [amount_sub], by
        simp [amount_compare, amount_ofLong, bigRational_sub_self, bigRational_compare_zero]⟩

/-- Claim C3: dividing by an Amount whose numerator is zero, or by the
null Amount, fails with `DivideByZero` — never a silent value. -/
theorem divide_by_zero_or_null :
    ∀ (a b : amount_t),
      (b.val = none ∨ ∃ vb, b.val = some vb ∧ vb.q.num = 0) →
      amount_div a b = .error .DivideByZero := by
  intro a b h
  rcases h with h | ⟨vb, hb, hz⟩
  · cases b; subst h; rfl
  · cases b; subst hb; simp [amount_div, hz]

/-- Witness for C3: `3 / null` and `3 / 0` both fail with
`DivideByZero`. -/
theorem divide_by_zero_or_null_witness :
    amount_div (amount_ofLong 3) amount_null = .error .DivideByZero ∧
    amount_div (amount_ofLong 3) (amount_ofLong 0) = .error .DivideByZero :=
  ⟨divide_by_zero_or_null _ _ (Or.inl rfl),
   divide_by_zero_or_null _ _ (Or.inr ⟨_, rfl, rfl⟩)⟩

/-- Counterexample to claim C4 as stated: $5 and an uncommoditized 5 are
a pair with distinct commodities (the second carries the anonymous null
commodity), `operator==` duly yields false — but `compare` on the same
pair succeeds with 0 instead of failing with `IncompatibleCommodities`,
because only *both*-non-null mismatches are incompatible. -/
theorem eq_mismatch_compare_counterexample :
    amount_commodity (⟨some ⟨⟨5, 0⟩, some "$", false⟩⟩ : amount_t) ≠
      amount_commodity (⟨some ⟨⟨5, 0⟩, none, false⟩⟩ : amount_t) ∧
    amount_eq ⟨some ⟨⟨5, 0⟩, some "$", false⟩⟩ ⟨some ⟨⟨5, 0⟩, none, false⟩⟩ = false ∧
    amount_compare ⟨some ⟨⟨5, 0⟩, some "$", false⟩⟩ ⟨some ⟨⟨5, 0⟩, none, false⟩⟩ = .ok 0 := by
  decide

/-- Claim C4 as amended: mismatched commodities make `operator==` false
without an error; `compare` fails with `IncompatibleCommodities` when the
two commodities are distinct and both non-null; and with equal
commodities `operator==` holds iff `compare` yields 0. -/
theorem eq_false_on_mismatch_compare :
    (∀ a b : amount_t,
        amount_commodity a ≠ amount_commodity b → amount_eq a b = false) ∧
    (∀ (a b : amount_t) (x y : String),
        amount_commodity a = some x → amount_commodity b = some y → x ≠ y →
        amount_compare a b = .error .IncompatibleCommodities) ∧
    (∀ a b : amount_t,
        amount_commodity a = amount_commodity b →
        (amount_eq a b = true ↔ amount_compare a b = .ok 0)) := by
  refine ⟨?_, ?_, ?_⟩
  · intro a b h
    simp [amount_eq, h]
  · intro a b x y hx hy hxy
    rcases a with ⟨_ | ⟨qa, ca, ka⟩⟩ <;> rcases b with ⟨_ | ⟨qb, cb, kb⟩⟩ <;>
      simp [amount_commodity] at hx hy
    subst hx; subst hy
    simp [amount_compare, hxy]
  · intro a b h
    simp only [amount_eq, h, if_pos]
    cases hc : amount_compare a b with
    | error e => simp [hc]
    | ok c => simp [hc]

/-- Witness for the amended C4: $5 vs uncommoditized 5 gives == false;
$5 vs 3 EUR makes compare fail; $5 vs itself links == to compare. -/
theorem eq_false_on_mismatch_compare_witness :
    amount_eq ⟨some ⟨⟨5, 0⟩, some "$", false⟩⟩ ⟨some ⟨⟨5, 0⟩, none, false⟩⟩ = false ∧
    amount_compare ⟨some ⟨⟨5, 0⟩, some "$", false⟩⟩ ⟨some ⟨⟨3, 0⟩, some "EUR", false⟩⟩ =
      .error .IncompatibleCommodities ∧
    (amount_eq ⟨some ⟨⟨5, 0⟩, some "$", false⟩⟩ ⟨some ⟨⟨5, 0⟩, some "$", false⟩⟩ = true ↔
      amount_compare ⟨some ⟨⟨5, 0⟩, some "$", false⟩⟩ ⟨some ⟨⟨5, 0⟩, some "$", false⟩⟩ = .ok 0) :=
  ⟨eq_false_on_mismatch_compare.1 _ _ (by decide),
   eq_false_on_mismatch_compare.2.1 _ _ "$" "EUR" rfl rfl (by decide),
   eq_false_on_mismatch_compare.2.2 _ _ rfl⟩

/-- Claim C5: under the documented data-model invariant (a quantity-less
Amount carries no commodity), `is_null` holds iff the quantity is
absent. -/
theorem is_null_iff_quantity_absent :
    ∀ (st : mem_state) (a : amount_rep),
      (a.quantity = none → a.commodity_ = none) →
      (is_null st a = true ↔ a.quantity = none) := by
  intro st a hinv
  constructor
  · intro h
    rcases hq : a.quantity with _ | q
    · rfl
    · simp [is_null, hq] at h
  · intro hq
    simp [is_null, hq, has_commodity, hinv hq]

/-- Witness for C5 at the default-constructed amount in a one-pool,
one-commodity object graph. -/
theorem is_null_iff_quantity_absent_witness :
    is_null ⟨fun _ => ⟨0, 0, 0, none, none, false⟩, fun _ => ⟨0, none⟩, 0⟩ ⟨none, none⟩ = true ↔
      (⟨none, none⟩ : amount_rep).quantity = none :=
  is_null_iff_quantity_absent _ _ (fun _ => rfl)

/-- Rescaling always lands exactly on the requested scale. -/
lemma bigRational_rescale_scale (q : bigRational) (p : Nat) :
    (bigRational_rescale q p).scale = p := by
  unfold bigRational_rescale
  split <;> rfl

/-- Rescaling twice to the same precision is the same as rescaling
once. -/
lemma bigRational_rescale_idem (q : bigRational) (p : Nat) :
    bigRational_rescale (bigRational_rescale q p) p = bigRational_rescale q p := by
  rcases hq : bigRational_rescale q p with ⟨n, s⟩
  have hs : s = p := by
    have h := bigRational_rescale_scale q p
    rw [hq] at h
    exact h
  subst hs
  simp [bigRational_rescale]

/-- `operator==` is reflexive: commodities agree and compare yields 0. -/
lemma amount_eq_refl (x : amount_t) : amount_eq x x = true := by
  have h : amount_compare x x = .ok 0 := by
    unfold amount_compare
    rcases h : (x.val.getD ⟨⟨0, 0⟩, none, false⟩).comm with _ | s <;>
      simp [h, bigRational_compare_self]
  simp [amount_eq, h]

/-- Claim C6: `exact` is parse-with-`PARSE_NO_MIGRATE`; any successful
`NO_MIGRATE` parse returns the pool unchanged (no commodity's display
precision or flags move) and an Amount marked to print at full internal
precision; and concretely `exact("$100.005")` prints as `"$100.005"`. -/
theorem exact_no_migrate_full_precision :
    (∀ (pool : commodity_pool_s) (s : String),
        amount_exact pool s = amount_parse pool s ⟨true, false⟩) ∧
    (∀ (pool : commodity_pool_s) (s : String) (nr : Bool)
        (a : amount_t) (pool' : commodity_pool_s),
        amount_parse pool s ⟨true, nr⟩ = .ok (a, pool') →
        pool' = pool ∧ ∃ v, a.val = some v ∧ v.keepPrec = true) ∧
    (∃ a, amount_exact (fun _ => ⟨0, 0⟩) "$100.005" = .ok (a, fun _ => ⟨0, 0⟩) ∧
        amount_print (fun _ => ⟨0, 0⟩) a false false = "$100.005") := by
  refine ⟨fun _ _ => rfl, ?_, ?_⟩
  · intro pool s nr a pool' h
    cases hr : parseRawAmount s with
    | error e => simp [amount_parse, hr] at h
    | ok r =>
      simp [amount_parse, hr] at h
      obtain ⟨ha, hp⟩ := h
      subst ha
      exact ⟨hp.symm, ⟨_, rfl, rfl⟩⟩
  · exact ⟨⟨some ⟨⟨100005, 3⟩, some "$", true⟩⟩, rfl, by decide⟩

/-- Witness for C6 applied at `"$100.005"` over the fresh pool: the
returned pool is the input pool and the amount carries the
full-precision mark. -/
theorem exact_no_migrate_full_precision_witness :
    (fun _ => (⟨0, 0⟩ : commodity_display)) = (fun _ : String => (⟨0, 0⟩ : commodity_display)) ∧
    ∃ v, (⟨some ⟨⟨100005, 3⟩, some "$", true⟩⟩ : amount_t).val = some v ∧ v.keepPrec = true :=
  exact_no_migrate_full_precision.2.1 (fun _ => ⟨0, 0⟩) "$100.005" false
    ⟨some ⟨⟨100005, 3⟩, some "$", true⟩⟩ (fun _ => ⟨0, 0⟩) rfl

/-- Claim C7: display rounding is idempotent at any precision (so in
particular at the commodity's display precision), both as structural
equality and under `operator==`; `round()` with no argument is
`round(commodity().precision())` when a commodity is present and the
identity otherwise. -/
theorem round_display_idempotent :
    ∀ (pool : commodity_pool_s) (a : amount_t) (p : Nat),
      amount_round (amount_round a p) p = amount_round a p ∧
      amount_eq (amount_round (amount_round a p) p) (amount_round a p) = true ∧
      (∀ (v : amount_v) (s : String), a.val = some v → v.comm = some s →
          amount_round0 pool a = amount_round a ((pool s).precision)) ∧
      (amount_commodity a = none → amount_round0 pool a = a) := by
  intro pool a p
  have hidem : amount_round (amount_round a p) p = amount_round a p := by
    rcases a with ⟨_ | ⟨q, c, k⟩⟩
    · rfl
    · simp [amount_round, bigRational_rescale_idem]
  refine ⟨hidem, by rw [hidem]; exact amount_eq_refl _, ?_, ?_⟩
  · intro v s hv hs
    cases a
    subst hv
    rcases v with ⟨q, c, k⟩
    dsimp at hs
    subst hs
    rfl
  · intro h
    rcases a with ⟨_ | ⟨q, c, k⟩⟩
    · rfl
    · dsimp [amount_commodity] at h
      subst h
      rfl

/-- Witness for C7 at `$0.5` (scale 1) rounded to precision 2, and at an
uncommoditized 7. -/
theorem round_display_idempotent_witness :
    amount_round (amount_round ⟨some ⟨⟨5, 1⟩, some "$", false⟩⟩ 2) 2 =
      amount_round ⟨some ⟨⟨5, 1⟩, some "$", false⟩⟩ 2 ∧
    amount_round0 (fun _ => ⟨2, 0⟩) ⟨some ⟨⟨5, 1⟩, some "$", false⟩⟩ =
      amount_round ⟨some ⟨⟨5, 1⟩, some "$", false⟩⟩ (((fun _ => (⟨2, 0⟩ : commodity_display)) "$").precision) ∧
    amount_round0 (fun _ => ⟨2, 0⟩) (amount_ofLong 7) = amount_ofLong 7 :=
  ⟨(round_display_idempotent (fun _ => ⟨2, 0⟩) ⟨some ⟨⟨5, 1⟩, some "$", false⟩⟩ 2).1,
   (round_display_idempotent (fun _ => ⟨2, 0⟩) ⟨some ⟨⟨5, 1⟩, some "$", false⟩⟩ 2).2.2.1
     ⟨⟨5, 1⟩, some "$", false⟩ "$" rfl rfl,
   (round_display_idempotent (fun _ => ⟨2, 0⟩) (amount_ofLong 7) 2).2.2.2 rfl⟩

/-- Claim C8: the quote hook yields the first subscriber's `some` result
in registration order; an empty subscriber list, or one whose members
all yield `none`, yields `none`; and once a subscriber has answered, the
result does not depend on the subscribers after it. -/
theorem get_quote_first_some :
    (∀ args, get_quote [] args = none) ∧
    (∀ (f : quote_args → Option amount_t) slots args v,
        f args = some v → get_quote (f :: slots) args = some v) ∧
    (∀ (f : quote_args → Option amount_t) slots args,
        f args = none → get_quote (f :: slots) args = get_quote slots args) ∧
    (∀ slots args, (∀ f ∈ slots, f args = none) → get_quote slots args = none) ∧
    (∀ pre (f : quote_args → Option amount_t) rest rest' args v,
        f args = some v →
        get_quote (pre ++ f :: rest) args = get_quote (pre ++ f :: rest') args) := by
  refine ⟨fun _ => rfl, ?_, ?_, ?_, ?_⟩
  · intro f slots args v h
    simp [get_quote, first_initialized, h]
  · intro f slots args h
    simp [get_quote, first_initialized, h]
  · intro slots args h
    induction slots with
    | nil => rfl
    | cons g gs ih =>
      have hg := h g (by simp)
      have ih' := ih (fun f hf => h f (by simp [hf]))
      simpa [get_quote, first_initialized, hg] using ih'
  · intro pre f rest rest' args v h
    induction pre with
    | nil => simp [get_quote, first_initialized, h]
    | cons g gs ih =>
      cases hg : g args with
      | some w => simp [get_quote, first_initialized, hg]
      | none => simpa [get_quote, first_initialized, hg] using ih

/-- Witness for C8 over a one-commodity argument tuple: a constant
`some 7` subscriber answers, a constant `none` subscriber defers, the
empty list yields `none`, and the tail after the answering subscriber is
irrelevant. -/
theorem get_quote_first_some_witness :
    get_quote [] ⟨⟨0, 0, 0, none, none, false⟩, none, none, none⟩ = none ∧
    get_quote [fun _ => some (amount_ofLong 7)]
        ⟨⟨0, 0, 0, none, none, false⟩, none, none, none⟩ = some (amount_ofLong 7) ∧
    get_quote ((fun _ => none) :: [fun _ => some (amount_ofLong 7)])
        ⟨⟨0, 0, 0, none, none, false⟩, none, none, none⟩ =
      get_quote [fun _ => some (amount_ofLong 7)]
        ⟨⟨0, 0, 0, none, none, false⟩, none, none, none⟩ ∧
    get_quote [fun _ => none] ⟨⟨0, 0, 0, none, none, false⟩, none, none, none⟩ = none ∧
    get_quote ([fun _ => none] ++ (fun _ => some (amount_ofLong 7)) :: [fun _ => none])
        ⟨⟨0, 0, 0, none, none, false⟩, none, none, none⟩ =
      get_quote ([fun _ => none] ++ (fun _ => some (amount_ofLong 7)) :: [])
        ⟨⟨0, 0, 0, none, none, false⟩, none, none, none⟩ :=
  ⟨get_quote_first_some.1 _,
   get_quote_first_some.2.1 _ _ _ _ rfl,
   get_quote_first_some.2.2.1 _ _ _ rfl,
   get_quote_first_some.2.2.2.1 [fun _ => none] _
     (by intro f hf; rw [List.mem_singleton] at hf; subst hf; rfl),
   get_quote_first_some.2.2.2.2 [fun _ => none] _ [fun _ => none] [] _ _ rfl⟩

/-- Claim C9: an AnnotatedCommodity shares its referent's CommodityBase,
has `annotated = true`, its referent is the plain commodity it was
created from, and every display-metadata mutation (precision, flags,
name, note) through either handle is read back through the other. -/
theorem annotated_commodity_shares_base :
    ∀ (p : commodity_t) (d : annot_t),
      (annotated_commodity_mk p d).toCommodity.base = p.base ∧
      (annotated_commodity_mk p d).toCommodity.annotated = true ∧
      annotated_referent (annotated_commodity_mk p d) = p ∧
      (∀ (st : base_store) (v : Nat),
          commodity_precision
            (commodity_set_precision st (annotated_commodity_mk p d).toCommodity v) p = v ∧
          commodity_precision
            (commodity_set_precision st p v) (annotated_commodity_mk p d).toCommodity = v) ∧
      (∀ (st : base_store) (v : Nat),
          commodity_flags
            (commodity_set_flags st (annotated_commodity_mk p d).toCommodity v) p = v ∧
          commodity_flags
            (commodity_set_flags st p v) (annotated_commodity_mk p d).toCommodity = v) ∧
      (∀ (st : base_store) (v : Option String),
          commodity_name
            (commodity_set_name st (annotated_commodity_mk p d).toCommodity v) p = v ∧
          commodity_name
            (commodity_set_name st p v) (annotated_commodity_mk p d).toCommodity = v) ∧
      (∀ (st : base_store) (v : Option String),
          commodity_note
            (commodity_set_note st (annotated_commodity_mk p d).toCommodity v) p = v ∧
          commodity_note
            (commodity_set_note st p v) (annotated_commodity_mk p d).toCommodity = v) := by
  intro p d
  refine ⟨rfl, rfl, rfl, ?_, ?_, ?_, ?_⟩ <;>
    · intro st v
      constructor <;>
        simp [annotated_commodity_mk, commodity_precision, commodity_set_precision,
              commodity_flags, commodity_set_flags, commodity_name, commodity_set_name,
              commodity_note, commodity_set_note]

/-- Claim C10: a NULL commodity pointer, or one equal to its own pool's
null-commodity sentinel, makes `has_commodity()` false and makes
`commodity()` return the default pool's null commodity — so an Amount
handed its pool's null sentinel through `set_commodity` is
indistinguishable, through those two accessors, from one with no
commodity pointer at all. -/
theorem commodity_null_sentinel :
    ∀ (st : mem_state) (a : amount_rep),
      ((a.commodity_ = none ∨
          ∃ cid, a.commodity_ = some cid ∧
            cid = (st.pools (st.comms cid).parent_).null_commodity) →
        has_commodity st a = false ∧
        commodity_of st a = (st.pools st.default_pool).null_commodity) ∧
      (∀ cid,
          cid = (st.pools (st.comms cid).parent_).null_commodity →
          has_commodity st (set_commodity a cid) =
            has_commodity st (clear_commodity a) ∧
          commodity_of st (set_commodity a cid) =
            commodity_of st (clear_commodity a)) := by
  intro st a
  constructor
  · intro h
    rcases h with h | ⟨cid, hc, hn⟩
    · simp [has_commodity, commodity_of, h]
    · rcases a with ⟨q, co⟩
      dsimp at hc
      subst hc
      refine ⟨?_, ?_⟩
      · exact decide_eq_false (fun hne => hne hn)
      · dsimp [commodity_of]
        rw [if_pos hn]
  · intro cid hn
    refine ⟨?_, ?_⟩
    · dsimp [has_commodity, set_commodity, clear_commodity]
      exact decide_eq_false (fun hne => hne hn)
    · dsimp [commodity_of, set_commodity, clear_commodity]
      rw [if_pos hn]

/-- Witness for C10 in a one-pool object graph whose null sentinel is
commodity 0: both disjuncts of the hypothesis are exercised. -/
theorem commodity_null_sentinel_witness :
    (has_commodity ⟨fun _ => ⟨0, 0, 0, none, none, false⟩, fun _ => ⟨0, none⟩, 0⟩
        ⟨none, some 0⟩ = false ∧
      commodity_of ⟨fun _ => ⟨0, 2, 0, none, none, false⟩, fun _ => ⟨0, none⟩, 0⟩
        ⟨none, some 0⟩ =
        ((⟨fun _ => ⟨0, 2, 0, none, none, false⟩, fun _ => ⟨0, none⟩, 0⟩ : mem_state).pools
          (⟨fun _ => ⟨0, 2, 0, none, none, false⟩, fun _ => ⟨0, none⟩, 0⟩ : mem_state).default_pool).null_commodity) ∧
    (has_commodity ⟨fun _ => ⟨0, 0, 0, none, none, false⟩, fun _ => ⟨0, none⟩, 0⟩
        (set_commodity ⟨none, none⟩ 0) =
      has_commodity ⟨fun _ => ⟨0, 0, 0, none, none, false⟩, fun _ => ⟨0, none⟩, 0⟩
        (clear_commodity ⟨none, none⟩) ∧
      commodity_of ⟨fun _ => ⟨0, 0, 0, none, none, false⟩, fun _ => ⟨0, none⟩, 0⟩
        (set_commodity ⟨none, none⟩ 0) =
      commodity_of ⟨fun _ => ⟨0, 0, 0, none, none, false⟩, fun _ => ⟨0, none⟩, 0⟩
        (clear_commodity ⟨none, none⟩)) :=
  ⟨⟨((commodity_null_sentinel ⟨fun _ => ⟨0, 0, 0, none, none, false⟩, fun _ => ⟨0, none⟩, 0⟩
        ⟨none, some 0⟩).1 (Or.inr ⟨0, rfl, rfl⟩)).1,
    ((commodity_null_sentinel ⟨fun _ => ⟨0, 2, 0, none, none, false⟩, fun _ => ⟨0, none⟩, 0⟩
        ⟨none, some 0⟩).1 (Or.inr ⟨0, rfl, rfl⟩)).2⟩,
   (commodity_null_sentinel ⟨fun _ => ⟨0, 0, 0, none, none, false⟩, fun _ => ⟨0, none⟩, 0⟩
        ⟨none, none⟩).2 0 rfl⟩

end Ledger
